import Mathlib

/-!
Shallow embedding of `amazon_kclpy/v2/processor.py` (the v2 record-processor
contract and the `V1toV2Processor` compatibility adapter), together with a
model of the driver's lifecycle protocol described by the base class's
docstring.

The Python adapter methods are straight-line code: each reads one or two
attributes of its request argument and invokes one method of the stored
delegate.  We embed a method as a function producing an `OpResult`: the
state of `self` after the call, the state of the request argument after the
call, the list of delegate invocations the body performed (in order, with
the exact arguments passed), and the outcome (the value returned, or the
exception propagated).  Python `None` is `PyVal.none`; a delegate, being an
arbitrary Python object, may return any value, so a delegate's behaviour is
a function from invocations to `Except ε (PyVal β)`.

Note on names: the Python method `initialize` is embedded under the Lean
name `initialize_` (and the delegate invocation constructor is
`initializeCall`); everything else keeps the source's spelling.
-/

set_option autoImplicit false

/-- A value as the Python runtime sees it: either `None` or a proper value
drawn from `β`.  The adapter methods end without a `return` statement, so
they return `None`; a delegate method may return anything. -/
inductive PyVal (β : Type) where
  | none : PyVal β
  | val : β → PyVal β

/-- `amazon_kclpy.messages.InitializeInput` as the adapter uses it: the
adapter reads only the `shard_id` attribute.  `extra` stands for every
further field the request object may carry (the class itself lives outside
this fragment); the adapter never touches it. -/
structure InitializeInput (σ α : Type) where
  shard_id : σ
  extra : α

/-- `amazon_kclpy.messages.ProcessRecordsInput` as the adapter uses it: the
adapter reads only `records` and `checkpointer`.  `extra` stands for every
further field (e.g. rate-limiting hints), which the adapter drops. -/
structure ProcessRecordsInput (ρ κ α : Type) where
  records : List ρ
  checkpointer : κ
  extra : α

/-- `amazon_kclpy.messages.ShutdownInput` as the adapter uses it: the
adapter reads only `checkpointer` and `reason`.  `extra` stands for every
further field, which the adapter drops. -/
structure ShutdownInput (κ τ α : Type) where
  checkpointer : κ
  reason : τ
  extra : α

/-- One invocation of a method of the legacy (v1) delegate, recording which
method was invoked and exactly the arguments passed, in order:
`initialize(shard_id)`, `process_records(records, checkpointer)` or
`shutdown(checkpointer, reason)`. -/
inductive DelegateCall (σ ρ κ τ : Type) where
  | initializeCall : σ → DelegateCall σ ρ κ τ
  | processRecordsCall : List ρ → κ → DelegateCall σ ρ κ τ
  | shutdownCall : κ → τ → DelegateCall σ ρ κ τ

/-- The `V1toV2Processor` object: its one instance attribute is `delegate`,
the legacy record processor requests are forwarded to.  The delegate is an
arbitrary object; we represent it by its behaviour, a function from an
invocation to the outcome that invocation produces (a returned Python value,
or a raised exception in `ε`). -/
structure V1toV2Processor (σ ρ κ τ ε β : Type) where
  delegate : DelegateCall σ ρ κ τ → Except ε (PyVal β)

/-- `V1toV2Processor.__init__(self, delegate)`: the body is the single
assignment `self.delegate = delegate`.  The result pairs the constructed
object with the list of delegate invocations made during construction
(none). -/
def V1toV2Processor.construct {σ ρ κ τ ε β : Type}
    (delegate : DelegateCall σ ρ κ τ → Except ε (PyVal β)) :
    V1toV2Processor σ ρ κ τ ε β × List (DelegateCall σ ρ κ τ) :=
  ({ delegate := delegate }, [])

/-- The observable outcome of running one adapter method: the state of
`self` afterwards, the state of the request argument afterwards, the
delegate invocations the body made in order, and either the value returned
or the exception propagated. -/
structure OpResult (σ ρ κ τ ε β ι : Type) where
  self : V1toV2Processor σ ρ κ τ ε β
  arg : ι
  calls : List (DelegateCall σ ρ κ τ)
  result : Except ε (PyVal β)

/-- `V1toV2Processor.initialize`: the body is the single statement
`self.delegate.initialize(initialize_input.shard_id)`.  It mutates nothing,
makes exactly one delegate invocation carrying `shard_id`; if the delegate
raises, the exception propagates unchanged, otherwise the method falls off
its end and returns `None` (the delegate's return value is discarded). -/
def V1toV2Processor.initialize_ {σ ρ κ τ ε β α : Type}
    (self : V1toV2Processor σ ρ κ τ ε β) (input : InitializeInput σ α) :
    OpResult σ ρ κ τ ε β (InitializeInput σ α) :=
  { self := self
    arg := input
    calls := [DelegateCall.initializeCall input.shard_id]
    result := Except.map (fun _ => PyVal.none)
      (self.delegate (DelegateCall.initializeCall input.shard_id)) }

/-- `V1toV2Processor.process_records`: the body is the single statement
`self.delegate.process_records(process_records_input.records,
process_records_input.checkpointer)`.  It mutates nothing and makes exactly
one delegate invocation carrying the records and the checkpointer; any
further request fields are dropped.  Exceptions propagate unchanged;
otherwise the method returns `None`. -/
def V1toV2Processor.process_records {σ ρ κ τ ε β α : Type}
    (self : V1toV2Processor σ ρ κ τ ε β) (input : ProcessRecordsInput ρ κ α) :
    OpResult σ ρ κ τ ε β (ProcessRecordsInput ρ κ α) :=
  { self := self
    arg := input
    calls := [DelegateCall.processRecordsCall input.records input.checkpointer]
    result := Except.map (fun _ => PyVal.none)
      (self.delegate (DelegateCall.processRecordsCall input.records input.checkpointer)) }

/-- `V1toV2Processor.shutdown`: the body is the single statement
`self.delegate.shutdown(shutdown_input.checkpointer, shutdown_input.reason)`.
It mutates nothing and makes exactly one delegate invocation carrying the
checkpointer and the reason, in that order.  Exceptions propagate unchanged;
otherwise the method returns `None`. -/
def V1toV2Processor.shutdown {σ ρ κ τ ε β α : Type}
    (self : V1toV2Processor σ ρ κ τ ε β) (input : ShutdownInput κ τ α) :
    OpResult σ ρ κ τ ε β (ShutdownInput κ τ α) :=
  { self := self
    arg := input
    calls := [DelegateCall.shutdownCall input.checkpointer input.reason]
    result := Except.map (fun _ => PyVal.none)
      (self.delegate (DelegateCall.shutdownCall input.checkpointer input.reason)) }

/-- The abstract base class `RecordProcessorBase` of
`amazon_kclpy/v2/processor.py`.  It defines no instance attributes. -/
structure RecordProcessorBase where

/-- The class attribute `version = 2` of `RecordProcessorBase`. -/
def RecordProcessorBase.version : Nat := 2

/-- `RecordProcessorBase.initialize`: declared `@abc.abstractmethod`, but its
body is a bare `return`; invoked directly it changes nothing and returns
`None`. -/
def RecordProcessorBase.initialize_ {ι β : Type}
    (self : RecordProcessorBase) (input : ι) :
    RecordProcessorBase × ι × PyVal β :=
  (self, input, PyVal.none)

/-- `RecordProcessorBase.process_records`: declared `@abc.abstractmethod`,
but its body is a bare `return`; invoked directly it changes nothing and
returns `None`. -/
def RecordProcessorBase.process_records {ι β : Type}
    (self : RecordProcessorBase) (input : ι) :
    RecordProcessorBase × ι × PyVal β :=
  (self, input, PyVal.none)

/-- `RecordProcessorBase.shutdown`: declared `@abc.abstractmethod`, but its
body is a bare `return`; invoked directly it changes nothing and returns
`None`. -/
def RecordProcessorBase.shutdown {ι β : Type}
    (self : RecordProcessorBase) (input : ι) :
    RecordProcessorBase × ι × PyVal β :=
  (self, input, PyVal.none)

/-- Python attribute lookup of `version` on a `V1toV2Processor` instance:
the instance dictionary holds only `delegate` and the class `V1toV2Processor`
defines no `version` of its own, so lookup falls back to the inherited class
attribute `RecordProcessorBase.version`. -/
def V1toV2Processor.versionAttr {σ ρ κ τ ε β : Type}
    (_self : V1toV2Processor σ ρ κ τ ε β) : Nat :=
  RecordProcessorBase.version

/-- The kind of a driver call into a record processor. -/
inductive CallKind where
  | initK : CallKind
  | procK : CallKind
  | shutK : CallKind
  deriving DecidableEq

/-- Lifecycle phase of a processor instance under the driver's protocol. -/
inductive LifecyclePhase where
  | created : LifecyclePhase
  | initialized : LifecyclePhase
  | terminal : LifecyclePhase
  deriving DecidableEq

/-- Modelled from the spec: the external driver (the MultiLangDaemon, which
is not part of this fragment) advances a processor instance through the
lifecycle Created → Initialized → (Processing)* → Shutdown → Terminal; each
step names the call the driver performs. -/
inductive DriverStep : LifecyclePhase → CallKind → LifecyclePhase → Prop where
  | init : DriverStep LifecyclePhase.created CallKind.initK LifecyclePhase.initialized
  | proc : DriverStep LifecyclePhase.initialized CallKind.procK LifecyclePhase.initialized
  | shut : DriverStep LifecyclePhase.initialized CallKind.shutK LifecyclePhase.terminal

/-- Modelled from the spec: a run of the driver protocol from phase `q`
performing the listed calls in order and ending in phase `q2`. -/
inductive DriverRun : LifecyclePhase → List CallKind → LifecyclePhase → Prop where
  | nil {q : LifecyclePhase} : DriverRun q [] q
  | cons {q q1 q2 : LifecyclePhase} {c : CallKind} {cs : List CallKind} :
      DriverStep q c q1 → DriverRun q1 cs q2 → DriverRun q (c :: cs) q2

/-- Modelled from the spec: a valid driver call sequence on one processor
instance is a nonempty run starting from the Created phase (per the base
class docstring the driver always performs the first, initializing call, so
a valid sequence is nonempty). -/
def ValidCallSequence (cs : List CallKind) : Prop :=
  cs ≠ [] ∧ ∃ q : LifecyclePhase, DriverRun LifecyclePhase.created cs q

/-- A concrete valid call sequence used to witness the lifecycle theorem. -/
def lifecycleWitnessSeq : List CallKind :=
  [CallKind.initK, CallKind.procK, CallKind.procK, CallKind.shutK]

/-- A delegate whose legacy `initialize` returns the Python value `42`
rather than `None`: a legal (if contract-violating) Python object, used to
separate "propagates the delegate's return value" from what the code does. -/
def returningDelegate : DelegateCall Unit Unit Unit Unit → Except Unit (PyVal Nat) :=
  fun _ => Except.ok (PyVal.val 42)

/-- An adapter wrapping `returningDelegate`. -/
def returningProcessor : V1toV2Processor Unit Unit Unit Unit Unit Nat :=
  { delegate := returningDelegate }

/-- A delegate every method of which raises the exception `"boom"`. -/
def raisingDelegate : DelegateCall Unit Unit Unit Unit → Except String (PyVal Nat) :=
  fun _ => Except.error "boom"

/-- An adapter wrapping `raisingDelegate`. -/
def raisingProcessor : V1toV2Processor Unit Unit Unit Unit String Nat :=
  { delegate := raisingDelegate }

/-- A concrete initialization request over trivial payload types. -/
def unitInitInput : InitializeInput Unit Unit :=
  { shard_id := (), extra := () }

/-- A concrete process-records request over trivial payload types. -/
def unitProcessInput : ProcessRecordsInput Unit Unit Unit :=
  { records := [], checkpointer := (), extra := () }

/-- A concrete shutdown request over trivial payload types. -/
def unitShutdownInput : ShutdownInput Unit Unit Unit :=
  { checkpointer := (), reason := (), extra := () }

/-- No driver step leaves the Terminal phase, so a run from Terminal is
empty. -/
theorem DriverRun.terminal_nil {cs : List CallKind} {q : LifecyclePhase}
    (h : DriverRun LifecyclePhase.terminal cs q) : cs = [] := by
  cases h with
  | nil => rfl
  | cons hstep _ => cases hstep

/-- A run from the Initialized phase contains no initializing call, contains
at most one shutdown call, and any shutdown call in it is its last call. -/
theorem DriverRun.from_initialized (cs : List CallKind) :
    ∀ q : LifecyclePhase, DriverRun LifecyclePhase.initialized cs q →
      CallKind.initK ∉ cs ∧ List.count CallKind.shutK cs ≤ 1 ∧
        ∀ pre suf, cs = pre ++ CallKind.shutK :: suf → suf = [] := by
  induction cs with
  | nil =>
    intro q _
    exact ⟨by simp, by simp, by intro pre suf h; simp at h⟩
  | cons c cs ih =>
    intro q h
    cases h with
    | cons hstep hrun =>
      cases hstep with
      | proc =>
        obtain ⟨h1, h2, h3⟩ := ih q hrun
        refine ⟨by simp [h1], by simpa [List.count_cons] using h2, ?_⟩
        intro pre suf heq
        cases pre with
        | nil => simp at heq
        | cons p ps =>
          rw [List.cons_append] at heq
          injection heq with hp hcs
          exact h3 ps suf hcs
      | shut =>
        have hnil : cs = [] := DriverRun.terminal_nil hrun
        subst hnil
        refine ⟨by simp, by simp, ?_⟩
        intro pre suf heq
        cases pre with
        | nil =>
          injection heq with hp hcs
          exact hcs.symm
        | cons p ps =>
          rw [List.cons_append] at heq
          injection heq with hp hcs
          simp at hcs

/-- Claim C1: for every `ProcessRecordsRequest` containing a record list `R`
and a checkpointer `C`, the adapter's `process_records` invokes the legacy
delegate's `process_records` with exactly the two arguments `(R, C)` and
nothing else, regardless of any additional fields present on the request
(which are dropped). -/
theorem process_records_forwards_exactly {σ ρ κ τ ε β α : Type}
    (p : V1toV2Processor σ ρ κ τ ε β) (input : ProcessRecordsInput ρ κ α) :
    (V1toV2Processor.process_records p input).calls =
      [DelegateCall.processRecordsCall input.records input.checkpointer] :=
  rfl

/-- Claim C2: for every `InitializeRequest` whose shard identifier field is
`s` (in particular the string `"shard-0001"`), the adapter's `initialize`
invokes the legacy delegate's `initialize` with exactly the single argument
`s` and nothing else. -/
theorem initialize_forwards_exactly {σ ρ κ τ ε β α : Type}
    (p : V1toV2Processor σ ρ κ τ ε β) (input : InitializeInput σ α) :
    (V1toV2Processor.initialize_ p input).calls =
      [DelegateCall.initializeCall input.shard_id] :=
  rfl

/-- Claim C3: for every `ShutdownRequest` carrying a checkpointer `C` and a
shutdown reason `r` (in particular `"TERMINATE"`), the adapter's `shutdown`
invokes the legacy delegate's `shutdown` with exactly the two arguments
`(C, r)`, in that order, and nothing else. -/
theorem shutdown_forwards_exactly {σ ρ κ τ ε β α : Type}
    (p : V1toV2Processor σ ρ κ τ ε β) (input : ShutdownInput κ τ α) :
    (V1toV2Processor.shutdown p input).calls =
      [DelegateCall.shutdownCall input.checkpointer input.reason] :=
  rfl

/-- Claim C4, counterexample: a delegate whose legacy `initialize` returns
the Python value `42` (not `None`).  The adapter's `initialize` on that
delegate returns `None`, not the delegate's return value: the claim that
"the adapter's operation returns the value the delegate's operation
returns" fails for a delegate that returns a value other than `None`. -/
theorem adapter_return_value_counterexample :
    (V1toV2Processor.initialize_ returningProcessor unitInitInput).result ≠
      returningProcessor.delegate
        (DelegateCall.initializeCall unitInitInput.shard_id) := by
  simp [V1toV2Processor.initialize_, returningProcessor, returningDelegate,
    Except.map]

/-- Claim C4 (amended): for every delegate and request input, each of the
adapter's three operations makes its one delegate invocation and propagates
a delegate exception unchanged; when the delegate returns normally, the
adapter's operation returns `None` — the value a contract-conforming void
delegate returns — discarding any other return value; the adapter
introduces no failure mode of its own. -/
theorem adapter_propagates_outcome {σ ρ κ τ ε β α1 α2 α3 : Type}
    (p : V1toV2Processor σ ρ κ τ ε β) (i1 : InitializeInput σ α1)
    (i2 : ProcessRecordsInput ρ κ α2) (i3 : ShutdownInput κ τ α3) :
    (∀ e, p.delegate (DelegateCall.initializeCall i1.shard_id) = Except.error e →
      (V1toV2Processor.initialize_ p i1).result = Except.error e) ∧
    (∀ v, p.delegate (DelegateCall.initializeCall i1.shard_id) = Except.ok v →
      (V1toV2Processor.initialize_ p i1).result = Except.ok PyVal.none) ∧
    (∀ e, p.delegate (DelegateCall.processRecordsCall i2.records i2.checkpointer) =
        Except.error e →
      (V1toV2Processor.process_records p i2).result = Except.error e) ∧
    (∀ v, p.delegate (DelegateCall.processRecordsCall i2.records i2.checkpointer) =
        Except.ok v →
      (V1toV2Processor.process_records p i2).result = Except.ok PyVal.none) ∧
    (∀ e, p.delegate (DelegateCall.shutdownCall i3.checkpointer i3.reason) =
        Except.error e →
      (V1toV2Processor.shutdown p i3).result = Except.error e) ∧
    (∀ v, p.delegate (DelegateCall.shutdownCall i3.checkpointer i3.reason) =
        Except.ok v →
      (V1toV2Processor.shutdown p i3).result = Except.ok PyVal.none) := by
  refine ⟨?_, ?_, ?_, ?_, ?_, ?_⟩ <;> intro x hx <;>
    simp [V1toV2Processor.initialize_, V1toV2Processor.process_records,
      V1toV2Processor.shutdown, hx, Except.map]

/-- Claim C5: constructing the adapter with a delegate `d` stores exactly
the reference `d` — the stored `delegate` attribute is the object passed in
— and construction makes no call into the delegate. -/
theorem construct_stores_delegate {σ ρ κ τ ε β : Type}
    (d : DelegateCall σ ρ κ τ → Except ε (PyVal β)) :
    (V1toV2Processor.construct d).1.delegate = d ∧
      (V1toV2Processor.construct d).2 = [] :=
  ⟨rfl, rfl⟩

/-- Claim C6: every adapter operation is a pure destructuring forward: it
leaves the stored delegate reference (indeed the whole object) unchanged,
leaves the request argument unchanged, and makes exactly one delegate
invocation — the corresponding legacy operation with the destructured
arguments — and no other, hence no retry. -/
theorem ops_pure_destructuring_forward {σ ρ κ τ ε β α1 α2 α3 : Type}
    (p : V1toV2Processor σ ρ κ τ ε β) (i1 : InitializeInput σ α1)
    (i2 : ProcessRecordsInput ρ κ α2) (i3 : ShutdownInput κ τ α3) :
    ((V1toV2Processor.initialize_ p i1).self = p ∧
      (V1toV2Processor.initialize_ p i1).arg = i1 ∧
      (V1toV2Processor.initialize_ p i1).calls =
        [DelegateCall.initializeCall i1.shard_id]) ∧
    ((V1toV2Processor.process_records p i2).self = p ∧
      (V1toV2Processor.process_records p i2).arg = i2 ∧
      (V1toV2Processor.process_records p i2).calls =
        [DelegateCall.processRecordsCall i2.records i2.checkpointer]) ∧
    ((V1toV2Processor.shutdown p i3).self = p ∧
      (V1toV2Processor.shutdown p i3).arg = i3 ∧
      (V1toV2Processor.shutdown p i3).calls =
        [DelegateCall.shutdownCall i3.checkpointer i3.reason]) :=
  ⟨⟨rfl, rfl, rfl⟩, ⟨rfl, rfl, rfl⟩, ⟨rfl, rfl, rfl⟩⟩

/-- Claim C7: for every valid driver call sequence on a given processor
instance, the initializing call occurs exactly once and strictly before any
process-records or shutdown call (it is the first call and recurs nowhere);
the shutdown call occurs at most once, and when it occurs no call of any
kind follows it — the lifecycle Created → Initialized → (Processing)* →
Shutdown → Terminal, as an invariant of the step relation `DriverStep` over
call sequences. -/
theorem driver_lifecycle (cs : List CallKind) (h : ValidCallSequence cs) :
    List.count CallKind.initK cs = 1 ∧
      (∃ rest, cs = CallKind.initK :: rest ∧ CallKind.initK ∉ rest) ∧
      List.count CallKind.shutK cs ≤ 1 ∧
      ∀ pre suf, cs = pre ++ CallKind.shutK :: suf → suf = [] := by
  obtain ⟨hne, q, hrun⟩ := h
  cases hrun with
  | nil => exact absurd rfl hne
  | cons hstep htail =>
    cases hstep with
    | init =>
      obtain ⟨h1, h2, h3⟩ := DriverRun.from_initialized _ _ htail
      refine ⟨?_, ⟨_, rfl, h1⟩, ?_, ?_⟩
      · simp [List.count_cons, List.count_eq_zero_of_not_mem h1]
      · simpa [List.count_cons] using h2
      · intro pre suf heq
        cases pre with
        | nil => simp at heq
        | cons p ps =>
          rw [List.cons_append] at heq
          injection heq with hp hcs
          exact h3 ps suf hcs

/-- Witness for C7 at the concrete valid call sequence
`[initK, procK, procK, shutK]`: its initializing call occurs exactly
once. -/
theorem driver_lifecycle_witness :
    List.count CallKind.initK lifecycleWitnessSeq = 1 :=
  (driver_lifecycle lifecycleWitnessSeq
    ⟨by simp [lifecycleWitnessSeq], LifecyclePhase.terminal,
      DriverRun.cons DriverStep.init
        (DriverRun.cons DriverStep.proc
          (DriverRun.cons DriverStep.proc
            (DriverRun.cons DriverStep.shut DriverRun.nil)))⟩).1

/-- Claim C8: each adapter operation returns `None` to its caller whenever
it returns at all — its outcome is either the returned value `None` or a
propagated exception, never a returned value other than `None`. -/
theorem ops_return_none {σ ρ κ τ ε β α1 α2 α3 : Type}
    (p : V1toV2Processor σ ρ κ τ ε β) (i1 : InitializeInput σ α1)
    (i2 : ProcessRecordsInput ρ κ α2) (i3 : ShutdownInput κ τ α3) :
    ((V1toV2Processor.initialize_ p i1).result = Except.ok PyVal.none ∨
      ∃ e, (V1toV2Processor.initialize_ p i1).result = Except.error e) ∧
    ((V1toV2Processor.process_records p i2).result = Except.ok PyVal.none ∨
      ∃ e, (V1toV2Processor.process_records p i2).result = Except.error e) ∧
    ((V1toV2Processor.shutdown p i3).result = Except.ok PyVal.none ∨
      ∃ e, (V1toV2Processor.shutdown p i3).result = Except.error e) := by
  have h : ∀ c : DelegateCall σ ρ κ τ,
      Except.map (fun _ => (PyVal.none : PyVal β)) (p.delegate c) =
          Except.ok (PyVal.none : PyVal β) ∨
        ∃ e, Except.map (fun _ => (PyVal.none : PyVal β)) (p.delegate c) =
          Except.error e := by
    intro c
    cases hc : p.delegate c with
    | ok v => exact Or.inl (by simp [Except.map])
    | error e => exact Or.inr ⟨e, by simp [Except.map]⟩
  exact ⟨h _, h _, h _⟩

/-- Claim C9: the class attribute `version` seen on any adapter instance is
`2` (inherited from `RecordProcessorBase`, which sets `version = 2`), and no
adapter operation changes it: after each operation the instance still
exposes `version = 2`. -/
theorem version_is_two_and_stable {σ ρ κ τ ε β α1 α2 α3 : Type}
    (p : V1toV2Processor σ ρ κ τ ε β) (i1 : InitializeInput σ α1)
    (i2 : ProcessRecordsInput ρ κ α2) (i3 : ShutdownInput κ τ α3) :
    RecordProcessorBase.version = 2 ∧
      V1toV2Processor.versionAttr p = 2 ∧
      V1toV2Processor.versionAttr (V1toV2Processor.initialize_ p i1).self = 2 ∧
      V1toV2Processor.versionAttr (V1toV2Processor.process_records p i2).self = 2 ∧
      V1toV2Processor.versionAttr (V1toV2Processor.shutdown p i3).self = 2 :=
  ⟨rfl, rfl, rfl, rfl, rfl⟩

/-- Claim C10: the base class's three operations are no-ops — invoked on any
input, `RecordProcessorBase`'s `initialize`, `process_records` and
`shutdown` change neither the instance nor their argument and return `None`
(their bodies are bare returns; the abstract-method declarations do not
alter them). -/
theorem base_methods_are_noops {ι1 ι2 ι3 β : Type}
    (self : RecordProcessorBase) (i1 : ι1) (i2 : ι2) (i3 : ι3) :
    RecordProcessorBase.initialize_ self i1 = (self, i1, (PyVal.none : PyVal β)) ∧
      RecordProcessorBase.process_records self i2 = (self, i2, (PyVal.none : PyVal β)) ∧
      RecordProcessorBase.shutdown self i3 = (self, i3, (PyVal.none : PyVal β)) :=
  ⟨rfl, rfl, rfl⟩
